import Mathlib

/-
Verification development for the sirtifai-backend payment/invoice flow.

Shallow embedding of:
- `src/controllers/paymentController.js` (order creation, payment verification),
- `src/controllers/invoiceController.js` (invoice lookup, invoice email),
- the `Student` mongoose model (consent validators, `updatePaymentStatus`,
  pre-save hooks, `findByRazorpayOrderId`),
- `src/utils/products.js` (`getProductById`) and `src/config/constants.js`.

Modelling conventions:
- Catalog prices and stored rupee amounts are integers (`Int`); the one
  fractional value produced by the code (`subtotal * (1 + GST_RATE)` in the
  create-order response) and the GST back-computation in the invoice view are
  rationals (`ℚ`).  JS `Math.round` is `round : ℚ → ℤ` (both are
  floor (x + 1/2)).
- Node's `crypto.createHmac("sha256", secret).update(m).digest("hex")` is
  implemented concretely below (SHA-256 + HMAC over byte lists, hex output)
  and validated against the FIPS 180-4 / RFC 4231 test vectors.
- JS falsy-driven defaulting (`a || b`) is modelled by explicit helpers on
  `Option` so that `0`, `""`, `false` and absence all fall through.
- Mongoose `save()` runs the schema validators before persisting, and both
  save sites of the flow observe their outcome.  The validators that decide
  the flow's saves are modelled explicitly (`validateStudent`): `gstAmountINR`
  required plus its coherence check, the `totalINR` and `subtotalINR`
  coherence checks, the `gstRate` bounds, the `order_`/`pay_` id formats, and
  the consent validators; the validators on applicant detail fields outside
  the model (name, phone, email, ZIP, date-of-birth age, ...) are abstracted
  by the `otherOk` flag.
- `Date.now()` style timestamps are an abstract `Nat` supplied by the caller;
  randomly generated identifiers (gateway order id, invoice number, invoice
  link token, student id) are parameters.
-/

set_option maxRecDepth 400000

set_option maxHeartbeats 1000000

namespace Sirtifai

/-! ## JS helpers: falsy-aware `||` defaulting -/

/-- JS `a || b` for possibly-absent strings: `undefined` and `""` fall through. -/
def jsOrS : Option String → Option String → Option String
  | some s, b => if s = "" then b else some s
  | none, b => b

/-- JS `a || b` for possibly-absent numbers: `undefined` and `0` fall through. -/
def jsOrI : Option Int → Int → Int
  | some n, b => if n = 0 then b else n
  | none, b => b

/-- JS truthiness of a possibly-absent boolean (`x || false`). -/
def jsTruthyB : Option Bool → Bool
  | some b => b
  | none => false

/-- JS truthiness of a possibly-absent number (`x && ...`). -/
def jsTruthyI : Option Int → Bool
  | some n => n != 0
  | none => false

/-! ## SHA-256 and HMAC-SHA256 (node `crypto`), over byte lists -/

/-- 32-bit modulus. -/
def w32 : Nat := 2 ^ 32

/-- Addition mod 2^32. -/
def add32 (a b : Nat) : Nat := (a + b) % w32

/-- Right rotation of a 32-bit word. -/
def rotr (n x : Nat) : Nat := ((x >>> n) ||| (x <<< (32 - n))) % w32

/-- Three-way xor. -/
def bxor3 (a b c : Nat) : Nat := Nat.xor (Nat.xor a b) c

/-- Message-schedule sigma-0. -/
def smallSigma0 (x : Nat) : Nat := bxor3 (rotr 7 x) (rotr 18 x) (x >>> 3)

/-- Message-schedule sigma-1. -/
def smallSigma1 (x : Nat) : Nat := bxor3 (rotr 17 x) (rotr 19 x) (x >>> 10)

/-- Compression Sigma-0. -/
def bigSigma0 (x : Nat) : Nat := bxor3 (rotr 2 x) (rotr 13 x) (rotr 22 x)

/-- Compression Sigma-1. -/
def bigSigma1 (x : Nat) : Nat := bxor3 (rotr 6 x) (rotr 11 x) (rotr 25 x)

/-- Choice function: bitwise `(x ∧ y) ⊕ (¬x ∧ z)` on 32-bit words. -/
def chFn (x y z : Nat) : Nat :=
  Nat.xor (Nat.land x y) (Nat.land ((w32 - 1) - x % w32) z)

/-- Majority function. -/
def majFn (x y z : Nat) : Nat :=
  Nat.xor (Nat.xor (Nat.land x y) (Nat.land x z)) (Nat.land y z)

/-- SHA-256 round constants. -/
def shaK : List Nat :=
  [1116352408, 1899447441, 3049323471, 3921009573, 961987163, 1508970993,
   2453635748, 2870763221, 3624381080, 310598401, 607225278, 1426881987,
   1925078388, 2162078206, 2614888103, 3248222580, 3835390401, 4022224774,
   264347078, 604807628, 770255983, 1249150122, 1555081692, 1996064986,
   2554220882, 2821834349, 2952996808, 3210313671, 3336571891, 3584528711,
   113926993, 338241895, 666307205, 773529912, 1294757372, 1396182291,
   1695183700, 1986661051, 2177026350, 2456956037, 2730485921, 2820302411,
   3259730800, 3345764771, 3516065817, 3600352804, 4094571909, 275423344,
   430227734, 506948616, 659060556, 883997877, 958139571, 1322822218,
   1537002063, 1747873779, 1955562222, 2024104815, 2227730452, 2361852424,
   2428436474, 2756734187, 3204031479, 3329325298]

/-- SHA-256 initial hash state. -/
def shaH0 : List Nat :=
  [1779033703, 3144134277, 1013904242, 2773480762, 1359893119, 2600822924,
   528734635, 1541459225]

/-- Group bytes into big-endian 32-bit words. -/
def bytesToWords : List Nat → List Nat
  | a :: b :: c :: d :: rest => (a * 0x1000000 + b * 0x10000 + c * 0x100 + d) :: bytesToWords rest
  | _ => []

/-- SHA-256 message padding: `0x80`, zeros, 64-bit big-endian bit length. -/
def shaPad (msg : List Nat) : List Nat :=
  let len := msg.length
  let bitLen := len * 8
  let zeros := (64 - (len + 9) % 64) % 64
  msg ++ [0x80] ++ List.replicate zeros 0 ++
    [(bitLen >>> 56) % 256, (bitLen >>> 48) % 256, (bitLen >>> 40) % 256, (bitLen >>> 32) % 256,
     (bitLen >>> 24) % 256, (bitLen >>> 16) % 256, (bitLen >>> 8) % 256, bitLen % 256]

/-- Extend a 16-word block to the 64-word message schedule. -/
def extendSchedule (ws : List Nat) : List Nat :=
  (List.range 48).foldl (fun acc i =>
    let t := i + 16
    let s0 := smallSigma0 (acc.getD (t - 15) 0)
    let s1 := smallSigma1 (acc.getD (t - 2) 0)
    acc ++ [add32 (add32 (acc.getD (t - 16) 0) s0) (add32 (acc.getD (t - 7) 0) s1)]) ws

/-- One round of the SHA-256 compression function. -/
def compressStep (st : Nat × Nat × Nat × Nat × Nat × Nat × Nat × Nat) (kw : Nat × Nat) :
    Nat × Nat × Nat × Nat × Nat × Nat × Nat × Nat :=
  let (a, b, c, d, e, f, g, h) := st
  let (k, w) := kw
  let t1 := add32 (add32 (add32 h (bigSigma1 e)) (add32 (chFn e f g) k)) w
  let t2 := add32 (bigSigma0 a) (majFn a b c)
  (add32 t1 t2, a, b, c, add32 d t1, e, f, g)

/-- Compress one 16-word block into the running hash state. -/
def compressBlock (hs : List Nat) (block : List Nat) : List Nat :=
  match hs with
  | [h0, h1, h2, h3, h4, h5, h6, h7] =>
    let ws := extendSchedule block
    let init : Nat × Nat × Nat × Nat × Nat × Nat × Nat × Nat := (h0, h1, h2, h3, h4, h5, h6, h7)
    let (a, b, c, d, e, f, g, h) := (shaK.zip ws).foldl compressStep init
    [add32 h0 a, add32 h1 b, add32 h2 c, add32 h3 d, add32 h4 e, add32 h5 f, add32 h6 g, add32 h7 h]
  | _ => hs

/-- Split a word list into 16-word blocks (structurally, so the kernel can reduce it). -/
def chunks16 : List Nat → List (List Nat)
  | w0 :: w1 :: w2 :: w3 :: w4 :: w5 :: w6 :: w7 ::
    w8 :: w9 :: w10 :: w11 :: w12 :: w13 :: w14 :: w15 :: rest =>
      [w0, w1, w2, w3, w4, w5, w6, w7, w8, w9, w10, w11, w12, w13, w14, w15] :: chunks16 rest
  | _ => []

/-- SHA-256 of a byte list, as eight 32-bit words. -/
def sha256Words (msg : List Nat) : List Nat :=
  (chunks16 (bytesToWords (shaPad msg))).foldl compressBlock shaH0

/-- Serialize 32-bit words back to big-endian bytes. -/
def wordsToBytes (ws : List Nat) : List Nat :=
  ws.flatMap (fun w => [(w >>> 24) % 256, (w >>> 16) % 256, (w >>> 8) % 256, w % 256])

/-- SHA-256 of a byte list, as a 32-byte digest. -/
def sha256 (msg : List Nat) : List Nat := wordsToBytes (sha256Words msg)

/-- Lower-case hex digit for a value below 16 (digits then letters). -/
def hexDigit (n : Nat) : Char :=
  if n < 10 then Char.ofNat (48 + n) else Char.ofNat (87 + n)

/-- Lower-case hex encoding of a byte list (node's `digest("hex")`). -/
def bytesToHex (bs : List Nat) : String :=
  String.mk (bs.flatMap (fun b => [hexDigit (b / 16 % 16), hexDigit (b % 16)]))

/-- UTF-8-agnostic byte view of an ASCII string. -/
def strBytes (s : String) : List Nat := s.toList.map Char.toNat

/-- HMAC-SHA256 (RFC 2104) with a 64-byte block size. -/
def hmacSha256 (key msg : List Nat) : List Nat :=
  let k0 := if key.length > 64 then sha256 key else key
  let kPadded := k0 ++ List.replicate (64 - k0.length) 0
  let ipad := kPadded.map (Nat.xor 0x36)
  let opad := kPadded.map (Nat.xor 0x5c)
  sha256 (opad ++ sha256 (ipad ++ msg))

/-- Hex-encoded HMAC-SHA256 of a string under a string secret:
`crypto.createHmac("sha256", secret).update(msg).digest("hex")`. -/
def hmacSha256Hex (secret msg : String) : String :=
  bytesToHex (hmacSha256 (strBytes secret) (strBytes msg))

/-! ## Constants (`src/config/constants.js`, `paymentController.js`) -/

/-- PAYMENT_STATUS enum. -/
inductive PaymentStatus where
  | PENDING | PROCESSING | SUCCESS | FAILED | REFUNDED
deriving DecidableEq

/-- STUDENT_STATUS enum. -/
inductive StudentStatus where
  | PENDING | ENROLLED | COMPLETED | SUSPENDED | CANCELLED
deriving DecidableEq

/-- GST_RATE from `paymentController.js` (`0.18`), as an exact rational. -/
def GST_RATE : ℚ := 18 / 100

/-! ## Product catalog and pricing (`src/utils/products.js`, `createStandardizedPackageData`) -/

/-- A catalog entry: the fields of a `products.json` record that the flow reads.
The source field `type` is `"monthly"` for duration-based products. -/
structure Product where
  name : String
  price : Int
  ptype : String
deriving DecidableEq

/-- The read-only catalog: `products.json` as a lookup from type and product id. -/
abbrev Catalog : Type := String → String → Option Product

/-- Lookup defined in `src/utils/products.js`: unknown type or unknown id gives `null`.
An absent (`undefined`) type or id also misses. -/
def getProductById (catalog : Catalog) : Option String → Option String → Option Product
  | some t, some p => catalog t p
  | _, _ => none

/-- addonTypeMap from `createStandardizedPackageData`. -/
def addonTypeMap : String → Option String
  | "programs" => some "programAddons"
  | "freelancer" => some "freelancerAddons"
  | "international" => some "internationalAddons"
  | _ => none

/-- An addon record kept on the student (`addonsData`): name and price. -/
structure AddonData where
  name : String
  price : Int
deriving DecidableEq

/-- The pricing object computed by `createStandardizedPackageData`. -/
structure PkgPricing where
  programUnitPrice : Int
  programPrice : Int
  addonPrice : Int
  subtotal : Int
  total : Int
deriving DecidableEq

/-- The standardized package data returned by `createStandardizedPackageData`. -/
structure StandardizedPackageData where
  selectedProductType : Option String
  selectedProduct : Option String
  selectedAddons : List String
  productData : Product
  addonsData : List AddonData
  pricing : PkgPricing
deriving DecidableEq

/-- createStandardizedPackageData from `paymentController.js`: resolve the product
(fail closed), resolve the addon type (fail closed), silently skip unresolvable
addon ids, price the program (`price * duration` only for `"monthly"` products),
sum the addon prices, and set `subtotal = programPrice + addonPrice`,
`total = subtotal` (GST treated as already included). -/
def createStandardizedPackageData (catalog : Catalog)
    (selectedProductType selectedProduct : Option String)
    (selectedAddons : List String) (duration : Int) :
    Except String StandardizedPackageData :=
  match getProductById catalog selectedProductType selectedProduct with
  | none => .error "Product not found"
  | some product =>
    match selectedProductType.bind addonTypeMap with
    | none => .error "Unknown addon type"
    | some selectedAddonType =>
      let addonsData := selectedAddons.filterMap fun addonId =>
        (catalog selectedAddonType addonId).map fun a => AddonData.mk a.name a.price
      let totalAddonPrice := (addonsData.map AddonData.price).sum
      let programPrice := if product.ptype = "monthly" then product.price * duration else product.price
      let subtotal := programPrice + totalAddonPrice
      .ok { selectedProductType := selectedProductType
            selectedProduct := selectedProduct
            selectedAddons := selectedAddons
            productData := product
            addonsData := addonsData
            pricing := { programUnitPrice := product.price
                         programPrice := programPrice
                         addonPrice := totalAddonPrice
                         subtotal := subtotal
                         total := subtotal } }

/-! ## EnrollmentOrder record (the `Student` mongoose model)

Only the fields read or written by the payment/invoice flow are modelled;
applicant detail fields that no handler logic branches on (address, identity
document, photo, ...) are elided. -/

/-- A persisted `Student` record. -/
structure StudentRec where
  studentId : String
  fullName : String
  email : String
  programType : Option String
  programName : String
  programDuration : Int
  programUnitPrice : Int
  programPriceINR : Int
  selectedAddons : List String
  selectedAddonNames : String
  addonPriceINR : Int
  addonsData : List AddonData
  invoiceNumber : String
  subtotalINR : Int
  gstRate : ℚ
  gstAmountINR : Option ℚ
  totalINR : Int
  paymentStatus : PaymentStatus
  razorpayOrderId : String
  razorpayPaymentId : Option String
  paymentDate : Option Nat
  invoiceLink : String
  agreedToTerms : Bool
  certifiedInformation : Bool
  status : StudentStatus
  enrollmentDate : Option Nat
deriving DecidableEq

/-- The order-record store: the `students` collection. -/
abbrev OrderStore : Type := List StudentRec

/-- Consent validators from the `Student` schema: `agreedToTerms` and
`certifiedInformation` must be exactly `true`.  The remaining field validators
of the schema are abstracted by the `otherOk` flag. -/
def consentValid (s : StudentRec) : Bool :=
  s.agreedToTerms && s.certifiedInformation

/-- ASCII alphanumeric test (`[A-Za-z0-9]`), by character code. -/
def isAsciiAlphanum (c : Char) : Bool :=
  (65 ≤ c.toNat && c.toNat ≤ 90) || (97 ≤ c.toNat && c.toNat ≤ 122) ||
    (48 ≤ c.toNat && c.toNat ≤ 57)

/-- A nonempty all-alphanumeric character list (`[A-Za-z0-9]+`). -/
def idSuffixOk (cs : List Char) : Bool :=
  !cs.isEmpty && cs.all isAsciiAlphanum

/-- Consume a literal tag from the front of a character list. -/
def dropTag : List Char → List Char → Option (List Char)
  | [], rest => some rest
  | _ :: _, [] => none
  | t :: ts, c :: cs => if t = c then dropTag ts cs else none

/-- The schema's id-format regexes `/^order_[A-Za-z0-9]+$/` and
`/^pay_[A-Za-z0-9]+$/`: a fixed tag followed by a nonempty alphanumeric
suffix. -/
def matchesIdFormat (tag s : String) : Bool :=
  match dropTag tag.toList s.toList with
  | none => false
  | some rest => idSuffixOk rest

/-- The schema's gst-amount coherence validator
`Math.abs(gstAmount - subtotal * gstRate/100) < 1`, written by cross
multiplication over the numerators and (positive) denominators so that it is
a pure integer computation. -/
def gstAmountCoherent (g : ℚ) (subtotal : Int) (rate : ℚ) : Bool :=
  decide ((g.num * ((rate.den : Int) * 100) - subtotal * rate.num * (g.den : Int)).natAbs <
    g.den * (rate.den * 100))

/-- The schema's total coherence validator
`Math.abs(total - (subtotal + gstAmount)) < 1`, by cross multiplication. -/
def totalCoherent (total subtotal : Int) (g : ℚ) : Bool :=
  decide (((total - subtotal) * (g.den : Int) - g.num).natAbs < g.den)

/-- The schema's `gstRate` bounds `min 0` and `max 50`, on the numerator and
(positive) denominator of the rational. -/
def gstRateInRange (r : ℚ) : Bool :=
  decide (0 ≤ r.num) && decide (r.num ≤ 50 * (r.den : Int))

/-- The `save()`-time validators of the `Student` schema that decide the saves
of this flow: `gstAmountINR` is required (when it is absent the required check
fails, and the `totalINR` validator's `subtotal + undefined` comparison is
against NaN and also fails) and must be within 1 of `subtotal * gstRate/100`;
`totalINR` must be within 1 of `subtotal + gstAmount`; `subtotalINR` within 1
of `programPriceINR + addonPriceINR`; `gstRate` between 0 and 50; the
Razorpay ids must match their formats (`razorpayPaymentId` only when set);
and both consent flags must be exactly true.  The validators on the applicant
detail fields that are not part of this model are conjoined separately as
`otherOk` at the save sites. -/
def validateStudent (s : StudentRec) : Bool :=
  (match s.gstAmountINR with
   | none => false
   | some g =>
     gstAmountCoherent g s.subtotalINR s.gstRate &&
     totalCoherent s.totalINR s.subtotalINR g) &&
  decide ((s.subtotalINR - (s.programPriceINR + s.addonPriceINR)).natAbs < 1) &&
  gstRateInRange s.gstRate &&
  matchesIdFormat "order_" s.razorpayOrderId &&
  (match s.razorpayPaymentId with
   | none => true
   | some p => matchesIdFormat "pay_" p) &&
  consentValid s

/-- Pre-save hook of the `Student` schema (the clauses relevant here):
set `enrollmentDate` when the status became ENROLLED and it is unset, and set
`paymentDate` when the payment status became SUCCESS and it is unset. -/
def preSaveHook (now : Nat) (s : StudentRec) : StudentRec :=
  let s1 := if s.status = StudentStatus.ENROLLED ∧ s.enrollmentDate = none then
    { s with enrollmentDate := some now } else s
  if s1.paymentStatus = PaymentStatus.SUCCESS ∧ s1.paymentDate = none then
    { s1 with paymentDate := some now } else s1

/-- Instance method `updatePaymentStatus(status, paymentId)`: the in-memory
document mutation that `save()` then persists — set the payment status, set
`razorpayPaymentId` when a truthy payment id is given, and on SUCCESS set
`paymentDate` to now and move the student status to ENROLLED; the pre-save
hook runs inside the save.  The `save()` re-validation of the whole document
(`validateStudent` and the `otherOk` remainder) is observed by the caller
(`verifyPayment`), which persists the result only when it passes and
otherwise sees a thrown ValidationError. -/
def updatePaymentStatus (now : Nat) (s : StudentRec) (status : PaymentStatus)
    (paymentId : Option String) : StudentRec :=
  let s1 := { s with paymentStatus := status }
  let s2 := match paymentId with
    | some pid => if pid = "" then s1 else { s1 with razorpayPaymentId := some pid }
    | none => s1
  let s3 := if status = PaymentStatus.SUCCESS then
    { s2 with paymentDate := some now, status := StudentStatus.ENROLLED } else s2
  preSaveHook now s3

/-- Static `findByRazorpayOrderId`: `findOne({ razorpayOrderId })`. -/
def findByRazorpayOrderId (store : OrderStore) (razorpayOrderId : String) : Option StudentRec :=
  store.find? fun s => s.razorpayOrderId == razorpayOrderId

/-- findOne({ invoiceLink }) used by both invoice endpoints. -/
def findByInvoiceLink (store : OrderStore) (invoiceLink : String) : Option StudentRec :=
  store.find? fun s => s.invoiceLink == invoiceLink

/-! ## POST /payments/create-order -/

/-- Request `packageData` payload (fields the handler reads). -/
structure PackageData where
  selectedProduct : Option String
  selectedProgram : Option String
  ptype : Option String
  selectedAddon : Option (List String)
  productDataDuration : Option Int
  selectedMonths : Option Int
deriving DecidableEq

/-- Date-of-birth input: absent/falsy, a structured `{day, month, year}` object
(the `dateValid` flag abstracts `isNaN(new Date(y, m-1, d).getTime())` on the
parsed components), or a date string (`parseValid` abstracts `new Date(s)`). -/
inductive DOBInput where
  | missing
  | obj (day month year : Option Int) (dateValid : Bool)
  | str (s : String) (parseValid : Bool)
deriving DecidableEq

/-- Request `studentData` payload (fields the handler logic branches on). -/
structure StudentData where
  fullName : String
  email : String
  dateOfBirth : DOBInput
  agreedToTerms : Option Bool
  certifiedInformation : Option Bool
deriving DecidableEq

/-- Request body of POST /payments/create-order. -/
structure CreateOrderReq where
  packageData : Option PackageData
  studentData : Option StudentData
deriving DecidableEq

/-- Outcome of the handler's date-of-birth parsing block. -/
inductive DOBResult where
  | missing | invalid | parsed
deriving DecidableEq

/-- Date-of-birth parsing from the handler: a falsy value is rejected as
required-but-missing; a structured object with all three components truthy
parses iff the components form a valid date; everything else goes through
`new Date(value)`, which yields an invalid date for objects and parses
strings by the platform rules. -/
def parseDateOfBirth : DOBInput → DOBResult
  | DOBInput.missing => DOBResult.missing
  | DOBInput.obj d m y dateValid =>
    if jsTruthyI d && jsTruthyI m && jsTruthyI y then
      (if dateValid then DOBResult.parsed else DOBResult.invalid)
    else DOBResult.invalid
  | DOBInput.str s parseValid =>
    if s = "" then DOBResult.missing
    else if parseValid then DOBResult.parsed else DOBResult.invalid

/-- Pricing block of the create-order response. -/
structure RespPricing where
  programPriceINR : Int
  addonPriceINR : Int
  subtotalINR : Int
  totalAmountINR : ℚ
  duration : Int
deriving DecidableEq

/-- Response of POST /payments/create-order. -/
structure CreateOrderResp where
  status : Nat
  success : Bool
  error : Option String
  orderId : Option String
  invoiceLink : Option String
  pricing : Option RespPricing
deriving DecidableEq

/-- A gateway order created through `razorpay.orders.create`. -/
structure GatewayOrder where
  id : String
  amountPaise : Int
  currency : String
deriving DecidableEq

/-- Full outcome of one create-order call: HTTP response, resulting store,
and the gateway orders created during the call. -/
structure CreateOrderOut where
  resp : CreateOrderResp
  store : OrderStore
  gateway : List GatewayOrder
deriving DecidableEq

/-- Error response helper for the create-order handler. -/
def coError (status : Nat) (msg : String) : CreateOrderResp :=
  { status := status, success := false, error := some msg,
    orderId := none, invoiceLink := none, pricing := none }

/-- POST /payments/create-order handler.  `gatewayOrderId`, `invoiceNumber`,
`invoiceLinkTok` and `studentId` stand for the generated identifiers, `now`
for the clock, and `otherOk` for the outcome of the schema validators on
fields outside the model.  Note the source order: the Razorpay order is
created BEFORE the date-of-birth validation and before `save()`.  The
controller never sets the schema-required `gstAmountINR` (the assignment is
commented out), so `validateStudent newStudent` is false and the save always
throws: the success branch below mirrors the source's response code but is
unreachable. -/
def createOrder (catalog : Catalog) (gatewayOrderId invoiceNumber invoiceLinkTok studentId : String)
    (otherOk : Bool) (now : Nat) (store : OrderStore) (req : CreateOrderReq) : CreateOrderOut :=
  match req.packageData, req.studentData with
  | none, _ => ⟨coError 400 "Missing package data or student data", store, []⟩
  | _, none => ⟨coError 400 "Missing package data or student data", store, []⟩
  | some pd, some sd =>
    let selectedProduct := jsOrS pd.selectedProduct pd.selectedProgram
    let selectedAddons := pd.selectedAddon.getD []
    let duration := jsOrI pd.productDataDuration (jsOrI pd.selectedMonths 1)
    match getProductById catalog pd.ptype selectedProduct with
    | none => ⟨coError 400 "Product not found", store, []⟩
    | some product =>
      match createStandardizedPackageData catalog pd.ptype selectedProduct selectedAddons duration with
      | Except.error _ => ⟨coError 500 "Failed to create order", store, []⟩
      | Except.ok std =>
        let subtotalINR := std.pricing.subtotal
        let totalAmountINR := subtotalINR
        -- razorpay.orders.create: amount in paise, Math.round exact on integers
        let gw : GatewayOrder := ⟨gatewayOrderId, totalAmountINR * 100, "INR"⟩
        match parseDateOfBirth sd.dateOfBirth with
        | DOBResult.missing => ⟨coError 400 "Date of birth is required", store, [gw]⟩
        | DOBResult.invalid => ⟨coError 400 "Invalid date of birth format", store, [gw]⟩
        | DOBResult.parsed =>
          let addonNames := String.intercalate ", " (std.addonsData.map AddonData.name)
          let newStudent : StudentRec :=
            { studentId := studentId
              fullName := sd.fullName
              email := sd.email
              programType := pd.ptype
              programName := product.name
              programDuration := duration
              programUnitPrice := std.pricing.programUnitPrice
              programPriceINR := std.pricing.programPrice
              selectedAddons := selectedAddons
              selectedAddonNames := addonNames
              addonPriceINR := std.pricing.addonPrice
              addonsData := std.addonsData
              invoiceNumber := invoiceNumber
              subtotalINR := subtotalINR
              gstRate := GST_RATE * 100
              gstAmountINR := none
              totalINR := subtotalINR
              paymentStatus := PaymentStatus.PROCESSING
              razorpayOrderId := gatewayOrderId
              razorpayPaymentId := none
              paymentDate := none
              invoiceLink := invoiceLinkTok
              agreedToTerms := jsTruthyB sd.agreedToTerms
              certifiedInformation := jsTruthyB sd.certifiedInformation
              status := StudentStatus.PENDING
              enrollmentDate := none }
          if validateStudent newStudent && otherOk then
            ⟨{ status := 200, success := true, error := none,
               orderId := some gatewayOrderId, invoiceLink := some invoiceLinkTok,
               pricing := some { programPriceINR := std.pricing.programPrice
                                 addonPriceINR := std.pricing.addonPrice
                                 subtotalINR := subtotalINR
                                 totalAmountINR := (subtotalINR : ℚ) * (1 + GST_RATE)
                                 duration := duration } },
             store ++ [preSaveHook now newStudent], [gw]⟩
          else
            ⟨coError 500 "Failed to create order", store, [gw]⟩

/-! ## POST /payments/verify -/

/-- Request body of POST /payments/verify. -/
structure VerifyReq where
  razorpay_order_id : String
  razorpay_payment_id : String
  razorpay_signature : String
deriving DecidableEq

/-- Expected signature: hex HMAC-SHA256 of `orderId|paymentId` under the secret. -/
def expectedSignature (secret orderId paymentId : String) : String :=
  hmacSha256Hex secret (orderId ++ "|" ++ paymentId)

/-- Signature check from the verify handler: ordinary string equality with the
recomputed expected signature. -/
def isSignatureValid (secret orderId paymentId providedSignature : String) : Bool :=
  expectedSignature secret orderId paymentId == providedSignature

/-- Response of POST /payments/verify.  `hasStudentDetails` tracks whether the
response body carried the `studentDetails`/`enrollmentStatus` block, which only
the first-call success response includes. -/
structure VerifyResp where
  status : Nat
  success : Bool
  message : Option String
  error : Option String
  paymentId : Option String
  orderId : Option String
  invoiceId : Option String
  studentId : Option String
  invoiceLink : Option String
  enrollmentStatus : Option StudentStatus
  hasStudentDetails : Bool
deriving DecidableEq

/-- Full outcome of one verify call: HTTP response, resulting store, and the
number of invoice-email dispatch attempts made (the POST to /invoices/send). -/
structure VerifyOut where
  resp : VerifyResp
  store : OrderStore
  emailsSent : Nat
deriving DecidableEq

/-- POST /payments/verify handler.  The signature is checked first (mismatch
gives 400 with no lookup and no write); then the student is fetched by gateway
order id (404 when absent); an already-SUCCESS record short-circuits with a
replay response and no side effects and no save; otherwise the record is
mutated to SUCCESS and saved — `save()` re-validates the whole document, and
when validation fails the thrown ValidationError reaches the handler's catch,
which answers 400 "Invalid student data" with nothing persisted and no email;
when it passes, the record is persisted and one invoice-email dispatch is
attempted (its failure is swallowed).  `otherOk` abstracts the validators on
the applicant fields outside the model. -/
def verifyPayment (secret : String) (otherOk : Bool) (now : Nat) (store : OrderStore)
    (req : VerifyReq) : VerifyOut :=
  if isSignatureValid secret req.razorpay_order_id req.razorpay_payment_id req.razorpay_signature then
    match findByRazorpayOrderId store req.razorpay_order_id with
    | none =>
      ⟨{ status := 404, success := false, message := none,
         error := some "Student record not found for this order",
         paymentId := none, orderId := none, invoiceId := none, studentId := none,
         invoiceLink := none, enrollmentStatus := none, hasStudentDetails := false },
       store, 0⟩
    | some student =>
      if student.paymentStatus = PaymentStatus.SUCCESS then
        ⟨{ status := 200, success := true, message := some "Payment already processed",
           error := none, paymentId := student.razorpayPaymentId,
           orderId := some req.razorpay_order_id, invoiceId := some student.invoiceLink,
           studentId := some student.studentId, invoiceLink := some student.invoiceLink,
           enrollmentStatus := none, hasStudentDetails := false },
         store, 0⟩
      else
        let student' := updatePaymentStatus now student PaymentStatus.SUCCESS
          (some req.razorpay_payment_id)
        if validateStudent student' && otherOk then
          let store' := store.map fun s =>
            if s.razorpayOrderId == req.razorpay_order_id then student' else s
          ⟨{ status := 200, success := true,
             message := some "Payment verified and student enrolled successfully",
             error := none, paymentId := some req.razorpay_payment_id,
             orderId := some req.razorpay_order_id, invoiceId := some student'.invoiceLink,
             studentId := some student'.studentId, invoiceLink := some student'.invoiceLink,
             enrollmentStatus := some student'.status, hasStudentDetails := true },
           store', 1⟩
        else
          ⟨{ status := 400, success := false, message := none,
             error := some "Invalid student data",
             paymentId := none, orderId := none, invoiceId := none, studentId := none,
             invoiceLink := none, enrollmentStatus := none, hasStudentDetails := false },
           store, 0⟩
  else
    ⟨{ status := 400, success := false, message := none, error := some "Invalid signature",
       paymentId := none, orderId := none, invoiceId := none, studentId := none,
       invoiceLink := none, enrollmentStatus := none, hasStudentDetails := false },
     store, 0⟩

/-! ## GET /invoices/:id (`invoiceController.js`) -/

/-- JS `a || b` for rationals (`student.gstRate || 18`): `0` falls through. -/
def jsOrQ (a b : ℚ) : ℚ := if a = 0 then b else a

/-- JS `a || b` for integers (`student.totalINR || student.subtotalINR`). -/
def jsOrZ (a b : Int) : Int := if a = 0 then b else a

/-- Invoice view returned by GET /invoices/:id (pricing-relevant fields). -/
structure InvoiceView where
  invoiceNumber : String
  programName : String
  programUnitPrice : Int
  programUnitPriceExclusiveGST : ℤ
  programPrice : Int
  programPriceINR : Int
  programPriceExclusiveGST : ℤ
  programDuration : Int
  selectedAddonNames : String
  addonsData : List AddonData
  addonPriceINR : Int
  addonPriceExclusiveGST : ℤ
  subtotalINR : Int
  subtotalExclusiveGST : ℤ
  gstRate : ℚ
  gstAmountINR : ℤ
  totalINR : Int
  paymentStatus : PaymentStatus
deriving DecidableEq

/-- Applicant block returned alongside the invoice (representative fields). -/
structure StudentView where
  fullName : String
  email : String
deriving DecidableEq

/-- Response of GET /invoices/:id. -/
structure InvoiceResp where
  status : Nat
  error : Option String
  invoice : Option InvoiceView
  student : Option StudentView
deriving DecidableEq

/-- GET /invoices/:id handler: look the student up by invoice-link token; when
the token is unknown or the payment status is not SUCCESS answer 404 with no
data; otherwise back-compute the GST-exclusive amounts per line with
`Math.round(inclusive / (1 + gstRate/100))` and return the invoice view.
The `addonPriceINR ? ... : 0` ternaries of the source are kept as `= 0` tests
(an absent addon price is stored as `0` in this model). -/
def getInvoiceById (store : OrderStore) (invoiceId : String) : InvoiceResp :=
  match findByInvoiceLink store invoiceId with
  | none => ⟨404, some "Invoice not found or payment not completed", none, none⟩
  | some student =>
    if student.paymentStatus = PaymentStatus.SUCCESS then
      let gstRate := jsOrQ student.gstRate 18
      let gstMultiplier : ℚ := 1 + gstRate / 100
      let programUnitPriceExclusiveGST := round ((student.programUnitPrice : ℚ) / gstMultiplier)
      let programPriceExclusiveGST := round ((student.programPriceINR : ℚ) / gstMultiplier)
      let programGSTAmount := (student.programPriceINR : ℤ) - programPriceExclusiveGST
      let addonPriceExclusiveGST := if student.addonPriceINR = 0 then 0
        else round ((student.addonPriceINR : ℚ) / gstMultiplier)
      let addonGSTAmount := if student.addonPriceINR = 0 then 0
        else (student.addonPriceINR : ℤ) - addonPriceExclusiveGST
      let subtotalExclusiveGST := programPriceExclusiveGST + addonPriceExclusiveGST
      let totalGSTAmount := programGSTAmount + addonGSTAmount
      ⟨200, none,
       some { invoiceNumber := student.invoiceNumber
              programName := student.programName
              programUnitPrice := student.programUnitPrice
              programUnitPriceExclusiveGST := programUnitPriceExclusiveGST
              programPrice := student.programUnitPrice
              programPriceINR := student.programPriceINR
              programPriceExclusiveGST := programPriceExclusiveGST
              programDuration := student.programDuration
              selectedAddonNames := student.selectedAddonNames
              addonsData := student.addonsData
              addonPriceINR := student.addonPriceINR
              addonPriceExclusiveGST := addonPriceExclusiveGST
              subtotalINR := student.subtotalINR
              subtotalExclusiveGST := subtotalExclusiveGST
              gstRate := gstRate
              gstAmountINR := totalGSTAmount
              totalINR := jsOrZ student.totalINR student.subtotalINR
              paymentStatus := student.paymentStatus },
       some ⟨student.fullName, student.email⟩⟩
    else ⟨404, some "Invoice not found or payment not completed", none, none⟩

/-! ## POST /invoices/send (`invoiceController.js`) -/

/-- Request body of POST /invoices/send (fields the handler reads). -/
structure SendReq where
  studentEmail : Option String
  invoiceLink : Option String
deriving DecidableEq

/-- Outcome of POST /invoices/send: HTTP status, the number of email dispatch
attempts handed to the SMTP relay, and the recipient of the attempt. -/
structure SendOut where
  status : Nat
  error : Option String
  emailsSent : Nat
  sentTo : Option String
deriving DecidableEq

/-- POST /invoices/send handler: requires truthy `studentEmail` and
`invoiceLink`, looks the student up by invoice link (404 when unknown), and
then unconditionally attempts the invoice email — the stored payment status is
never consulted.  `emailOk` abstracts the SMTP relay outcome. -/
def sendInvoice (emailOk : Bool) (store : OrderStore) (req : SendReq) : SendOut :=
  match req.studentEmail, req.invoiceLink with
  | some em, some link =>
    if em = "" ∨ link = "" then
      ⟨400, some "Missing required fields: studentEmail, invoiceLink", 0, none⟩
    else
      match findByInvoiceLink store link with
      | none => ⟨404, some "Invoice not found", 0, none⟩
      | some _student =>
        if emailOk then ⟨200, none, 1, some em⟩
        else ⟨500, some "Failed to send invoice email", 1, some em⟩
  | _, _ => ⟨400, some "Missing required fields: studentEmail, invoiceLink", 0, none⟩

/-! ## Concrete fixtures used by witnesses and counterexamples -/

/-- A small concrete catalog in the shape of `products.json`. -/
def demoCatalog : Catalog := fun t p =>
  if t = "programs" then
    (if p = "fullstack" then some ⟨"Full Stack", 500, "monthly"⟩
     else if p = "data" then some ⟨"Data Analytics", 2000, "flat"⟩
     else none)
  else if t = "programAddons" then
    (if p = "addon1" then some ⟨"Addon One", 500, "flat"⟩ else none)
  else none

/-- A create-order package selection: monthly product for 2 months, no addons. -/
def demoPackage : PackageData :=
  { selectedProduct := some "fullstack", selectedProgram := none, ptype := some "programs",
    selectedAddon := some [], productDataDuration := none, selectedMonths := some 2 }

/-- A fully valid applicant payload. -/
def demoStudentData : StudentData :=
  { fullName := "Asha Rao", email := "asha@example.com",
    dateOfBirth := DOBInput.str "1990-01-01" true,
    agreedToTerms := some true, certifiedInformation := some true }

/-- A PROCESSING record present in the students collection, shaped so that a
SUCCESS transition passes the schema re-validation: it carries a coherent
`gstAmountINR` (180 = 1000 * 18%) and `totalINR` (1180 = 1000 + 180), and
well-formed Razorpay id formats.  (The current create-order handler cannot
persist records — see C9 — so such a record stems from an earlier writer of
the collection.) -/
def demoStudent : StudentRec :=
  { studentId := "STU-1", fullName := "Asha Rao", email := "asha@example.com",
    programType := some "programs", programName := "Full Stack", programDuration := 2,
    programUnitPrice := 500, programPriceINR := 1000, selectedAddons := [],
    selectedAddonNames := "", addonPriceINR := 0, addonsData := [],
    invoiceNumber := "SRT/INT/20260101/000001", subtotalINR := 1000, gstRate := 18,
    gstAmountINR := some 180, totalINR := 1180,
    paymentStatus := PaymentStatus.PROCESSING,
    razorpayOrderId := "order_1", razorpayPaymentId := none, paymentDate := none,
    invoiceLink := "11111111-1111-1111-1111-111111111111", agreedToTerms := true,
    certifiedInformation := true, status := StudentStatus.PENDING, enrollmentDate := none }

/-- A persisted SUCCESS record with an addon line, for invoice-view fixtures. -/
def demoStudentPaid : StudentRec :=
  { demoStudent with
    studentId := "STU-2", programDuration := 6, programPriceINR := 3000,
    selectedAddons := ["addon1"], selectedAddonNames := "Addon One",
    addonPriceINR := 500, addonsData := [⟨"Addon One", 500⟩],
    invoiceNumber := "SRT/INT/20260101/000002", subtotalINR := 3500,
    gstAmountINR := some 630, totalINR := 4130,
    paymentStatus := PaymentStatus.SUCCESS, razorpayOrderId := "order_2",
    razorpayPaymentId := some "pay_2", paymentDate := some 50,
    invoiceLink := "22222222-2222-2222-2222-222222222222",
    status := StudentStatus.ENROLLED, enrollmentDate := some 50 }

/-- The verify-callback payload for `demoStudent`, with a correct signature. -/
def demoVerifyReq : VerifyReq :=
  { razorpay_order_id := "order_1", razorpay_payment_id := "pay_1",
    razorpay_signature := expectedSignature "sk_test" "order_1" "pay_1" }

/-- Applicant payload with the date of birth absent. -/
def demoStudentNoDob : StudentData :=
  { demoStudentData with dateOfBirth := DOBInput.missing }

/-- Applicant payload that has not agreed to the terms. -/
def demoStudentNoConsent : StudentData :=
  { demoStudentData with agreedToTerms := some false }

/-- Fallback records for extracting concrete results out of `Option`/`Except`. -/
def emptyStd : StandardizedPackageData :=
  ⟨none, none, [], ⟨"", 0, ""⟩, [], ⟨0, 0, 0, 0, 0⟩⟩

/-- Fallback invoice view. -/
def emptyInvoiceView : InvoiceView :=
  ⟨"", "", 0, 0, 0, 0, 0, 0, "", [], 0, 0, 0, 0, 0, 0, 0, PaymentStatus.PENDING⟩

/-- Concrete standardized package data for the fixture selection. -/
def demoStd : StandardizedPackageData :=
  (createStandardizedPackageData demoCatalog (some "programs") (some "fullstack")
    ["addon1"] 2).toOption.getD emptyStd

/-- Concrete standardized package data for the fixture selection without
addons (the `demoPackage` request). -/
def demoStdNoAddon : StandardizedPackageData :=
  (createStandardizedPackageData demoCatalog (some "programs") (some "fullstack")
    [] 2).toOption.getD emptyStd

/-- Concrete invoice view served for `demoStudentPaid`. -/
def demoInvoiceView : InvoiceView :=
  (getInvoiceById [demoStudentPaid] "22222222-2222-2222-2222-222222222222").invoice.getD
    emptyInvoiceView

/-! ## Helper lemmas -/

/-- Replacing every element that satisfies `p` by a fixed element that also
satisfies `p` commutes with `find?`. -/
theorem find?_map_replace {α : Type} (p : α → Bool) (y : α) (hy : p y = true) :
    ∀ l : List α, (l.map fun x => if p x then y else x).find? p =
      (l.find? p).map fun _ => y
  | [] => rfl
  | a :: t => by
    by_cases h : p a = true
    · simp [List.find?_cons, h, hy]
    · simp [List.find?_cons, h, find?_map_replace p y hy t]

/-- An element returned by `find?` satisfies the predicate. -/
theorem find?_sat {α : Type} (p : α → Bool) :
    ∀ (l : List α) (a : α), l.find? p = some a → p a = true
  | [], _, h => by simp [List.find?] at h
  | x :: t, a, h => by
    cases hx : p x with
    | true =>
      simp only [List.find?_cons, hx] at h
      injection h with h
      subst h
      exact hx
    | false =>
      simp only [List.find?_cons, hx] at h
      exact find?_sat p t a h

/-- The pre-save hook does not touch the consent flags. -/
theorem preSaveHook_agreedToTerms (now : Nat) (s : StudentRec) :
    (preSaveHook now s).agreedToTerms = s.agreedToTerms := by
  unfold preSaveHook
  split <;> (dsimp only; split <;> rfl)

/-- The pre-save hook does not touch the consent flags. -/
theorem preSaveHook_certifiedInformation (now : Nat) (s : StudentRec) :
    (preSaveHook now s).certifiedInformation = s.certifiedInformation := by
  unfold preSaveHook
  split <;> (dsimp only; split <;> rfl)

/-- The pre-save hook does not touch the stored amounts. -/
theorem preSaveHook_subtotalINR (now : Nat) (s : StudentRec) :
    (preSaveHook now s).subtotalINR = s.subtotalINR := by
  unfold preSaveHook
  split <;> (dsimp only; split <;> rfl)

/-- The pre-save hook does not touch the stored amounts. -/
theorem preSaveHook_totalINR (now : Nat) (s : StudentRec) :
    (preSaveHook now s).totalINR = s.totalINR := by
  unfold preSaveHook
  split <;> (dsimp only; split <;> rfl)

/-- Closed form of `updatePaymentStatus` for a SUCCESS transition with a
truthy payment id. -/
theorem updatePaymentStatus_SUCCESS (now : Nat) (s : StudentRec) (pid : String)
    (hpid : pid ≠ "") :
    updatePaymentStatus now s PaymentStatus.SUCCESS (some pid) =
      { s with
        paymentStatus := PaymentStatus.SUCCESS
        razorpayPaymentId := some pid
        paymentDate := some now
        status := StudentStatus.ENROLLED
        enrollmentDate := if s.enrollmentDate = none then some now else s.enrollmentDate } := by
  unfold updatePaymentStatus preSaveHook
  simp only [if_neg hpid]
  by_cases he : s.enrollmentDate = none
  · simp [he]
  · simp [he]

/-- createOrder can never persist a record or answer success: the record it
builds has `gstAmountINR := none` (the controller comments the assignment
out) while the schema requires the field, so `validateStudent newStudent` is
false and every `save()` throws — each branch of the handler leaves the store
unchanged, answers an error, and carries no pricing block. -/
theorem createOrder_always_fails (catalog : Catalog) (gid inv tok sid : String)
    (otherOk : Bool) (now : Nat) (store : OrderStore) (req : CreateOrderReq) :
    (createOrder catalog gid inv tok sid otherOk now store req).store = store ∧
    (createOrder catalog gid inv tok sid otherOk now store req).resp.success = false ∧
    (createOrder catalog gid inv tok sid otherOk now store req).resp.pricing = none := by
  obtain ⟨pdo, sdo⟩ := req
  cases pdo with
  | none =>
    cases sdo with
    | none => exact ⟨rfl, rfl, rfl⟩
    | some sd => exact ⟨rfl, rfl, rfl⟩
  | some pd =>
    cases sdo with
    | none => exact ⟨rfl, rfl, rfl⟩
    | some sd =>
      unfold createOrder
      dsimp only
      cases hp : getProductById catalog pd.ptype (jsOrS pd.selectedProduct pd.selectedProgram) with
      | none => exact ⟨rfl, rfl, rfl⟩
      | some product =>
        cases hstd : createStandardizedPackageData catalog pd.ptype
            (jsOrS pd.selectedProduct pd.selectedProgram) (pd.selectedAddon.getD [])
            (jsOrI pd.productDataDuration (jsOrI pd.selectedMonths 1)) with
        | error e => exact ⟨rfl, rfl, rfl⟩
        | ok std =>
          cases hdob : parseDateOfBirth sd.dateOfBirth with
          | missing => exact ⟨rfl, rfl, rfl⟩
          | invalid => exact ⟨rfl, rfl, rfl⟩
          | parsed =>
            dsimp only
            split
            case isTrue hc => simp [validateStudent] at hc
            case isFalse => exact ⟨rfl, rfl, rfl⟩

/-! ## Claim theorems -/

/-- C4: signature verification is a pure deterministic function: the expected
signature is the hex-encoded HMAC-SHA256 of `orderId|paymentId` under the
secret, and verification succeeds exactly when the provided signature is
string-equal to it — so the exact recomputed signature passes and any
differing string fails. -/
theorem c4_signature_verification (secret orderId paymentId sig : String) :
    (isSignatureValid secret orderId paymentId sig = true ↔
      sig = hmacSha256Hex secret (orderId ++ "|" ++ paymentId)) ∧
    expectedSignature secret orderId paymentId =
      hmacSha256Hex secret (orderId ++ "|" ++ paymentId) := by
  constructor
  · unfold isSignatureValid expectedSignature
    rw [beq_iff_eq]
    exact eq_comm
  · rfl

/-- C6: whenever the pricing calculator succeeds, the subtotal is exactly the
program price plus the addon price; the program price is the unit price times
the duration for `"monthly"` products and the bare unit price otherwise; and
an empty addon selection prices the addons at zero. -/
theorem c6_pricing_subtotal (catalog : Catalog) (ptype pid : Option String)
    (addons : List String) (duration : Int) (std : StandardizedPackageData)
    (hdur : 0 < duration)
    (h : createStandardizedPackageData catalog ptype pid addons duration = Except.ok std) :
    std.pricing.subtotal = std.pricing.programPrice + std.pricing.addonPrice ∧
    std.pricing.programPrice =
      (if std.productData.ptype = "monthly" then std.pricing.programUnitPrice * duration
       else std.pricing.programUnitPrice) ∧
    (addons = [] → std.pricing.addonPrice = 0) := by
  unfold createStandardizedPackageData at h
  cases hp : getProductById catalog ptype pid with
  | none => rw [hp] at h; exact absurd h (by simp)
  | some product =>
    rw [hp] at h
    cases hA : ptype.bind addonTypeMap with
    | none => rw [hA] at h; exact absurd h (by simp)
    | some addonType =>
      rw [hA] at h
      simp only [Except.ok.injEq] at h
      subst h
      refine ⟨rfl, ?_, ?_⟩
      · by_cases hm : product.ptype = "monthly" <;> simp [hm]
      · intro ha; subst ha; rfl

/-- C7: the invoice lookup either answers 404 with no invoice and no applicant
data, or the token resolves to a record whose payment status is SUCCESS and
the invoice view is served with status 200 — a PROCESSING order is never
revealed. -/
theorem c7_invoice_lookup_gate (store : OrderStore) (invoiceId : String) :
    ((getInvoiceById store invoiceId).status = 404 ∧
      (getInvoiceById store invoiceId).invoice = none ∧
      (getInvoiceById store invoiceId).student = none) ∨
    (∃ s, findByInvoiceLink store invoiceId = some s ∧
      s.paymentStatus = PaymentStatus.SUCCESS ∧
      (getInvoiceById store invoiceId).status = 200 ∧
      (getInvoiceById store invoiceId).invoice ≠ none ∧
      (getInvoiceById store invoiceId).student ≠ none) := by
  unfold getInvoiceById
  cases h : findByInvoiceLink store invoiceId with
  | none => left; exact ⟨rfl, rfl, rfl⟩
  | some s =>
    by_cases hs : s.paymentStatus = PaymentStatus.SUCCESS
    · right; exact ⟨s, rfl, hs, by simp [hs], by simp [hs], by simp [hs]⟩
    · left; simp [hs]

/-- C6 witness: the fixture selection (monthly product, one addon, duration 2)
prices to 1000 + 500 = 1500. -/
theorem c6_pricing_subtotal_witness :
    (0 : Int) < 2 ∧
    createStandardizedPackageData demoCatalog (some "programs") (some "fullstack") ["addon1"] 2 =
      Except.ok demoStd ∧
    (demoStd.pricing.subtotal = demoStd.pricing.programPrice + demoStd.pricing.addonPrice ∧
     demoStd.pricing.programPrice =
       (if demoStd.productData.ptype = "monthly" then demoStd.pricing.programUnitPrice * 2
        else demoStd.pricing.programUnitPrice) ∧
     (["addon1"] = ([] : List String) → demoStd.pricing.addonPrice = 0)) :=
  ⟨by decide, rfl,
   c6_pricing_subtotal demoCatalog (some "programs") (some "fullstack") ["addon1"] 2 demoStd
     (by decide) rfl⟩

/-- C5: a verify request whose signature does not match the recomputed expected
signature is answered 400 "Invalid signature" and causes no store write, no
status transition, and no email. -/
theorem c5_invalid_signature_rejected (secret : String) (otherOk : Bool) (now : Nat)
    (store : OrderStore) (req : VerifyReq)
    (h : req.razorpay_signature ≠
      expectedSignature secret req.razorpay_order_id req.razorpay_payment_id) :
    verifyPayment secret otherOk now store req =
      ⟨⟨400, false, none, some "Invalid signature", none, none, none, none, none, none, false⟩,
       store, 0⟩ := by
  have hv : ¬ (isSignatureValid secret req.razorpay_order_id req.razorpay_payment_id
      req.razorpay_signature = true) := by
    unfold isSignatureValid
    rw [beq_iff_eq]
    exact fun hh => h hh.symm
  unfold verifyPayment
  rw [if_neg hv]

/-- C5 witness: a concrete tampered signature is rejected with the store and
side effects untouched. -/
theorem c5_invalid_signature_rejected_witness :
    ("bad" : String) ≠ expectedSignature "sk_test" "order_1" "pay_1" ∧
    verifyPayment "sk_test" true 42 [demoStudent] ⟨"order_1", "pay_1", "bad"⟩ =
      ⟨⟨400, false, none, some "Invalid signature", none, none, none, none, none, none, false⟩,
       [demoStudent], 0⟩ :=
  ⟨by decide,
   c5_invalid_signature_rejected "sk_test" true 42 [demoStudent] ⟨"order_1", "pay_1", "bad"⟩
     (by decide)⟩

/-- C10: POST /invoices/send dispatches the invoice email for any record the
invoice link resolves to, without consulting the payment status — in
particular for a PROCESSING (unpaid) order, for which the GET invoice lookup
answers 404 with no data. -/
theorem c10_send_ignores_payment_status (emailOk : Bool) (store : OrderStore)
    (em link : String) (s : StudentRec)
    (hem : em ≠ "") (hlink : link ≠ "")
    (hfind : findByInvoiceLink store link = some s)
    (hstatus : s.paymentStatus = PaymentStatus.PROCESSING) :
    (sendInvoice emailOk store ⟨some em, some link⟩).emailsSent = 1 ∧
    (sendInvoice emailOk store ⟨some em, some link⟩).sentTo = some em ∧
    (getInvoiceById store link).status = 404 ∧
    (getInvoiceById store link).invoice = none := by
  have hcond : ¬ (em = "" ∨ link = "") := by
    rintro (h | h)
    · exact hem h
    · exact hlink h
  have hns : ¬ s.paymentStatus = PaymentStatus.SUCCESS := by
    rw [hstatus]; intro h; exact absurd h (by decide)
  unfold sendInvoice getInvoiceById
  dsimp only
  rw [hfind, if_neg hcond]
  dsimp only
  rw [if_neg hns]
  cases emailOk <;> exact ⟨rfl, rfl, rfl, rfl⟩

/-- C10 witness: for the concrete PROCESSING record, the send endpoint
dispatches the email while the GET lookup refuses to serve the invoice. -/
theorem c10_send_ignores_payment_status_witness :
    ("asha@example.com" : String) ≠ "" ∧
    ("11111111-1111-1111-1111-111111111111" : String) ≠ "" ∧
    findByInvoiceLink [demoStudent] "11111111-1111-1111-1111-111111111111" =
      some demoStudent ∧
    demoStudent.paymentStatus = PaymentStatus.PROCESSING ∧
    ((sendInvoice true [demoStudent]
        ⟨some "asha@example.com", some "11111111-1111-1111-1111-111111111111"⟩).emailsSent = 1 ∧
     (sendInvoice true [demoStudent]
        ⟨some "asha@example.com", some "11111111-1111-1111-1111-111111111111"⟩).sentTo =
       some "asha@example.com" ∧
     (getInvoiceById [demoStudent] "11111111-1111-1111-1111-111111111111").status = 404 ∧
     (getInvoiceById [demoStudent] "11111111-1111-1111-1111-111111111111").invoice = none) :=
  ⟨by decide, by decide, by decide, rfl,
   c10_send_ignores_payment_status true [demoStudent] "asha@example.com"
     "11111111-1111-1111-1111-111111111111" demoStudent (by decide) (by decide) (by decide) rfl⟩

/-- C2: an EnrollmentOrder record can only be persisted with both consent
flags true: any record added by createOrder carries both flags, and a request
whose terms-agreed or information-certified flag is missing or false fails
(the schema validators reject the save) with the store unchanged. -/
theorem c2_consent_flags_required (catalog : Catalog) (gid inv tok sid : String)
    (otherOk : Bool) (now : Nat) (store : OrderStore) (req : CreateOrderReq)
    (sd : StudentData) (hsd : req.studentData = some sd) :
    (∀ r ∈ (createOrder catalog gid inv tok sid otherOk now store req).store,
      r ∈ store ∨ (r.agreedToTerms = true ∧ r.certifiedInformation = true)) ∧
    (jsTruthyB sd.agreedToTerms = false ∨ jsTruthyB sd.certifiedInformation = false →
      (createOrder catalog gid inv tok sid otherOk now store req).store = store ∧
      (createOrder catalog gid inv tok sid otherOk now store req).resp.success = false) := by
  obtain h := createOrder_always_fails catalog gid inv tok sid otherOk now store req
  constructor
  · intro r hr
    rw [h.1] at hr
    exact Or.inl hr
  · intro _
    exact ⟨h.1, h.2.1⟩

/-- C2 witness: a concrete request that declined the terms leaves the store
empty and fails. -/
theorem c2_consent_flags_required_witness :
    (⟨some demoPackage, some demoStudentNoConsent⟩ : CreateOrderReq).studentData =
      some demoStudentNoConsent ∧
    ((∀ r ∈ (createOrder demoCatalog "order_1" "INV1" "LINK1" "STU-1" true 10 []
        ⟨some demoPackage, some demoStudentNoConsent⟩).store,
        r ∈ ([] : OrderStore) ∨ (r.agreedToTerms = true ∧ r.certifiedInformation = true)) ∧
     (jsTruthyB demoStudentNoConsent.agreedToTerms = false ∨
        jsTruthyB demoStudentNoConsent.certifiedInformation = false →
      (createOrder demoCatalog "order_1" "INV1" "LINK1" "STU-1" true 10 []
        ⟨some demoPackage, some demoStudentNoConsent⟩).store = [] ∧
      (createOrder demoCatalog "order_1" "INV1" "LINK1" "STU-1" true 10 []
        ⟨some demoPackage, some demoStudentNoConsent⟩).resp.success = false)) :=
  ⟨rfl, c2_consent_flags_required demoCatalog "order_1" "INV1" "LINK1" "STU-1" true 10 []
    ⟨some demoPackage, some demoStudentNoConsent⟩ demoStudentNoConsent rfl⟩

/-- C3 counterexample: a create-order request with the date of birth missing
is answered 400 and persists nothing, yet the gateway order HAS been created —
the claim that no gateway order is created for such a request is false. -/
theorem c3_counterexample :
    (createOrder demoCatalog "order_1" "INV1" "LINK1" "STU-1" true 10 []
      ⟨some demoPackage, some demoStudentNoDob⟩).resp.status = 400 ∧
    (createOrder demoCatalog "order_1" "INV1" "LINK1" "STU-1" true 10 []
      ⟨some demoPackage, some demoStudentNoDob⟩).store = [] ∧
    (createOrder demoCatalog "order_1" "INV1" "LINK1" "STU-1" true 10 []
      ⟨some demoPackage, some demoStudentNoDob⟩).gateway =
      [⟨"order_1", 100000, "INR"⟩] := by
  exact ⟨rfl, rfl, rfl⟩

/-- C3 amended: a create-order request whose applicant date of birth is
missing or invalid is answered with a 400 error and no record is persisted,
but only after the gateway order has been created — the handler calls
`razorpay.orders.create` before parsing the date of birth, so exactly one
gateway order is created and orphaned. -/
theorem c3_dob_checked_after_gateway (catalog : Catalog) (gid inv tok sid : String)
    (otherOk : Bool) (now : Nat) (store : OrderStore) (pd : PackageData) (sd : StudentData)
    (product : Product) (std : StandardizedPackageData)
    (hprod : getProductById catalog pd.ptype
      (jsOrS pd.selectedProduct pd.selectedProgram) = some product)
    (hstd : createStandardizedPackageData catalog pd.ptype
      (jsOrS pd.selectedProduct pd.selectedProgram) (pd.selectedAddon.getD [])
      (jsOrI pd.productDataDuration (jsOrI pd.selectedMonths 1)) = Except.ok std)
    (hdob : parseDateOfBirth sd.dateOfBirth ≠ DOBResult.parsed) :
    (createOrder catalog gid inv tok sid otherOk now store ⟨some pd, some sd⟩).resp.status = 400 ∧
    (createOrder catalog gid inv tok sid otherOk now store ⟨some pd, some sd⟩).resp.success = false ∧
    (createOrder catalog gid inv tok sid otherOk now store ⟨some pd, some sd⟩).store = store ∧
    (createOrder catalog gid inv tok sid otherOk now store ⟨some pd, some sd⟩).gateway =
      [⟨gid, std.pricing.subtotal * 100, "INR"⟩] := by
  unfold createOrder
  dsimp only
  rw [hprod, hstd]
  dsimp only
  cases hd : parseDateOfBirth sd.dateOfBirth with
  | missing => exact ⟨rfl, rfl, rfl, rfl⟩
  | invalid => exact ⟨rfl, rfl, rfl, rfl⟩
  | parsed => exact absurd hd hdob

/-- C3 witness: the amended statement at the concrete missing-DOB request. -/
theorem c3_dob_checked_after_gateway_witness :
    getProductById demoCatalog demoPackage.ptype
      (jsOrS demoPackage.selectedProduct demoPackage.selectedProgram) =
      some ⟨"Full Stack", 500, "monthly"⟩ ∧
    createStandardizedPackageData demoCatalog demoPackage.ptype
      (jsOrS demoPackage.selectedProduct demoPackage.selectedProgram)
      (demoPackage.selectedAddon.getD [])
      (jsOrI demoPackage.productDataDuration (jsOrI demoPackage.selectedMonths 1)) =
      Except.ok demoStdNoAddon ∧
    parseDateOfBirth demoStudentNoDob.dateOfBirth ≠ DOBResult.parsed ∧
    ((createOrder demoCatalog "order_1" "INV1" "LINK1" "STU-1" true 10 []
        ⟨some demoPackage, some demoStudentNoDob⟩).resp.status = 400 ∧
     (createOrder demoCatalog "order_1" "INV1" "LINK1" "STU-1" true 10 []
        ⟨some demoPackage, some demoStudentNoDob⟩).resp.success = false ∧
     (createOrder demoCatalog "order_1" "INV1" "LINK1" "STU-1" true 10 []
        ⟨some demoPackage, some demoStudentNoDob⟩).store = [] ∧
     (createOrder demoCatalog "order_1" "INV1" "LINK1" "STU-1" true 10 []
        ⟨some demoPackage, some demoStudentNoDob⟩).gateway =
        [⟨"order_1", demoStdNoAddon.pricing.subtotal * 100, "INR"⟩]) :=
  ⟨rfl, rfl, by decide,
   c3_dob_checked_after_gateway demoCatalog "order_1" "INV1" "LINK1" "STU-1" true 10 []
     demoPackage demoStudentNoDob ⟨"Full Stack", 500, "monthly"⟩ demoStdNoAddon rfl rfl
     (by decide)⟩

/-- C9: order creation is impossible in the current code, so the claim's
"created order" has no instances: the controller never sets the
schema-required `gstAmountINR` (its assignment is commented out), every
`newStudent.save()` throws ValidationError, and the handler answers 500
"Failed to create order" with nothing persisted and no pricing block — for
every request, and concretely for a fully valid one, where the Razorpay
gateway order has nevertheless already been created (and is orphaned).  The
success-response code, which would report
`totalAmountINR = subtotal * (1 + GST_RATE)` rather than the subtotal, is
unreachable. -/
theorem c9_create_order_never_persists :
    (∀ (catalog : Catalog) (gid inv tok sid : String) (otherOk : Bool) (now : Nat)
        (store : OrderStore) (req : CreateOrderReq),
      (createOrder catalog gid inv tok sid otherOk now store req).store = store ∧
      (createOrder catalog gid inv tok sid otherOk now store req).resp.success = false ∧
      (createOrder catalog gid inv tok sid otherOk now store req).resp.pricing = none) ∧
    createOrder demoCatalog "order_1" "INV1" "LINK1" "STU-1" true 10 []
        ⟨some demoPackage, some demoStudentData⟩ =
      ⟨⟨500, false, some "Failed to create order", none, none, none⟩, [],
       [⟨"order_1", 100000, "INR"⟩]⟩ := by
  constructor
  · intro catalog gid inv tok sid otherOk now store req
    exact createOrder_always_fails catalog gid inv tok sid otherOk now store req
  · decide

/-- C8: every served invoice view back-computes the GST-exclusive amount of
each line as `round(inclusive / (1 + gstRate/100))`, takes the GST portion as
`inclusive - exclusive`, applies this independently to the program line and
the addon line, sums them for the subtotal breakdown, and each line's
exclusive amount plus its GST portion recovers the stored inclusive amount
exactly. -/
theorem c8_gst_breakdown (store : OrderStore) (invoiceId : String) (inv : InvoiceView)
    (h : (getInvoiceById store invoiceId).invoice = some inv) :
    inv.programPriceExclusiveGST = round ((inv.programPriceINR : ℚ) / (1 + inv.gstRate / 100)) ∧
    inv.addonPriceExclusiveGST = round ((inv.addonPriceINR : ℚ) / (1 + inv.gstRate / 100)) ∧
    inv.programUnitPriceExclusiveGST =
      round ((inv.programUnitPrice : ℚ) / (1 + inv.gstRate / 100)) ∧
    inv.subtotalExclusiveGST = inv.programPriceExclusiveGST + inv.addonPriceExclusiveGST ∧
    inv.gstAmountINR = (inv.programPriceINR - inv.programPriceExclusiveGST) +
      (inv.addonPriceINR - inv.addonPriceExclusiveGST) ∧
    inv.programPriceExclusiveGST + (inv.programPriceINR - inv.programPriceExclusiveGST) =
      inv.programPriceINR ∧
    inv.addonPriceExclusiveGST + (inv.addonPriceINR - inv.addonPriceExclusiveGST) =
      inv.addonPriceINR := by
  unfold getInvoiceById at h
  cases hf : findByInvoiceLink store invoiceId with
  | none => simp only [hf] at h; exact absurd h (by simp)
  | some s =>
    simp only [hf] at h
    by_cases hs : s.paymentStatus = PaymentStatus.SUCCESS
    case neg => rw [if_neg hs] at h; exact absurd h (by simp)
    case pos =>
      rw [if_pos hs] at h
      dsimp only at h
      injection h with h
      subst h
      refine ⟨rfl, ?_, rfl, rfl, ?_, by ring, by ring⟩
      · dsimp only
        by_cases h0 : s.addonPriceINR = 0
        · rw [if_pos h0, h0]
          simp
        · rw [if_neg h0]
      · dsimp only
        by_cases h0 : s.addonPriceINR = 0
        · rw [if_pos h0, if_pos h0, h0]
          ring
        · rw [if_neg h0, if_neg h0]

/-- C8 witness: the invoice view of the concrete paid record satisfies the GST
breakdown equations (program line 3000 gives 2542 exclusive, addon line 500
gives 424 exclusive). -/
theorem c8_gst_breakdown_witness :
    (getInvoiceById [demoStudentPaid] "22222222-2222-2222-2222-222222222222").invoice =
      some demoInvoiceView ∧
    (demoInvoiceView.programPriceExclusiveGST =
      round ((demoInvoiceView.programPriceINR : ℚ) / (1 + demoInvoiceView.gstRate / 100)) ∧
    demoInvoiceView.addonPriceExclusiveGST =
      round ((demoInvoiceView.addonPriceINR : ℚ) / (1 + demoInvoiceView.gstRate / 100)) ∧
    demoInvoiceView.programUnitPriceExclusiveGST =
      round ((demoInvoiceView.programUnitPrice : ℚ) / (1 + demoInvoiceView.gstRate / 100)) ∧
    demoInvoiceView.subtotalExclusiveGST =
      demoInvoiceView.programPriceExclusiveGST + demoInvoiceView.addonPriceExclusiveGST ∧
    demoInvoiceView.gstAmountINR =
      (demoInvoiceView.programPriceINR - demoInvoiceView.programPriceExclusiveGST) +
      (demoInvoiceView.addonPriceINR - demoInvoiceView.addonPriceExclusiveGST) ∧
    demoInvoiceView.programPriceExclusiveGST +
      (demoInvoiceView.programPriceINR - demoInvoiceView.programPriceExclusiveGST) =
      demoInvoiceView.programPriceINR ∧
    demoInvoiceView.addonPriceExclusiveGST +
      (demoInvoiceView.addonPriceINR - demoInvoiceView.addonPriceExclusiveGST) =
      demoInvoiceView.addonPriceINR) :=
  ⟨rfl, c8_gst_breakdown [demoStudentPaid] "22222222-2222-2222-2222-222222222222"
    demoInvoiceView rfl⟩

/-- C1 counterexample: replaying the same valid verify callback does NOT
yield the same response body.  The fixture record carries a coherent
`gstAmountINR`/`totalINR`, so the SUCCESS transition genuinely passes the
schema re-validation: the first call answers with the full enrollment
response and the replay answers "Payment already processed" without the
student-details block — the claim that both calls yield the same response is
false. -/
theorem c1_counterexample :
    (verifyPayment "sk_test" true 43
      (verifyPayment "sk_test" true 42 [demoStudent] demoVerifyReq).store demoVerifyReq).resp ≠
    (verifyPayment "sk_test" true 42 [demoStudent] demoVerifyReq).resp := by
  decide

/-- C1 amended: replaying the same valid verify callback is idempotent in its
effects, provided the first call's SUCCESS transition passes the schema
re-validation (otherwise both calls answer 400 "Invalid student data" alike,
with no email and no write): the replay succeeds, re-sends no email (the
email fires exactly once across the two calls), rewrites no field of the
store, and agrees with the first response on paymentId, orderId and
invoiceLink — but the two response bodies differ (distinct message, and the
student-details block only on the first call). -/
theorem c1_verify_replay_idempotent_effects (secret : String) (otherOk : Bool)
    (now now2 : Nat) (store : OrderStore) (req : VerifyReq) (st : StudentRec)
    (hsig : req.razorpay_signature =
      expectedSignature secret req.razorpay_order_id req.razorpay_payment_id)
    (hfind : findByRazorpayOrderId store req.razorpay_order_id = some st)
    (hst : st.paymentStatus ≠ PaymentStatus.SUCCESS)
    (hpid : req.razorpay_payment_id ≠ "")
    (hvalid : (validateStudent (updatePaymentStatus now st PaymentStatus.SUCCESS
      (some req.razorpay_payment_id)) && otherOk) = true) :
    (verifyPayment secret otherOk now store req).resp.success = true ∧
    (verifyPayment secret otherOk now store req).emailsSent = 1 ∧
    (verifyPayment secret otherOk now2
      (verifyPayment secret otherOk now store req).store req).resp.success = true ∧
    (verifyPayment secret otherOk now2
      (verifyPayment secret otherOk now store req).store req).emailsSent = 0 ∧
    (verifyPayment secret otherOk now2
      (verifyPayment secret otherOk now store req).store req).store =
      (verifyPayment secret otherOk now store req).store ∧
    (verifyPayment secret otherOk now2
      (verifyPayment secret otherOk now store req).store req).resp.paymentId =
      (verifyPayment secret otherOk now store req).resp.paymentId ∧
    (verifyPayment secret otherOk now2
      (verifyPayment secret otherOk now store req).store req).resp.orderId =
      (verifyPayment secret otherOk now store req).resp.orderId ∧
    (verifyPayment secret otherOk now2
      (verifyPayment secret otherOk now store req).store req).resp.invoiceLink =
      (verifyPayment secret otherOk now store req).resp.invoiceLink ∧
    (verifyPayment secret otherOk now2
      (verifyPayment secret otherOk now store req).store req).resp.message =
      some "Payment already processed" ∧
    (verifyPayment secret otherOk now store req).resp.message =
      some "Payment verified and student enrolled successfully" := by
  have hv : isSignatureValid secret req.razorpay_order_id req.razorpay_payment_id
      req.razorpay_signature = true := by
    unfold isSignatureValid
    rw [beq_iff_eq]
    exact hsig.symm
  have hfind' : store.find? (fun s => s.razorpayOrderId == req.razorpay_order_id) = some st :=
    hfind
  have hpst : (st.razorpayOrderId == req.razorpay_order_id) = true :=
    find?_sat (fun s => s.razorpayOrderId == req.razorpay_order_id) store st hfind'
  have hupd := updatePaymentStatus_SUCCESS now st req.razorpay_payment_id hpid
  have hfirst : verifyPayment secret otherOk now store req =
      ⟨⟨200, true, some "Payment verified and student enrolled successfully", none,
        some req.razorpay_payment_id, some req.razorpay_order_id,
        some (updatePaymentStatus now st PaymentStatus.SUCCESS
          (some req.razorpay_payment_id)).invoiceLink,
        some (updatePaymentStatus now st PaymentStatus.SUCCESS
          (some req.razorpay_payment_id)).studentId,
        some (updatePaymentStatus now st PaymentStatus.SUCCESS
          (some req.razorpay_payment_id)).invoiceLink,
        some (updatePaymentStatus now st PaymentStatus.SUCCESS
          (some req.razorpay_payment_id)).status, true⟩,
       store.map (fun s => if s.razorpayOrderId == req.razorpay_order_id then
         updatePaymentStatus now st PaymentStatus.SUCCESS (some req.razorpay_payment_id) else s),
       1⟩ := by
    unfold verifyPayment
    rw [if_pos hv, hfind]
    dsimp only
    rw [if_neg hst, if_pos hvalid]
  have hy : ((updatePaymentStatus now st PaymentStatus.SUCCESS
      (some req.razorpay_payment_id)).razorpayOrderId == req.razorpay_order_id) = true := by
    rw [hupd]
    exact hpst
  have hfind2 : findByRazorpayOrderId
      (store.map (fun s => if s.razorpayOrderId == req.razorpay_order_id then
        updatePaymentStatus now st PaymentStatus.SUCCESS (some req.razorpay_payment_id) else s))
      req.razorpay_order_id =
      some (updatePaymentStatus now st PaymentStatus.SUCCESS (some req.razorpay_payment_id)) := by
    unfold findByRazorpayOrderId at hfind ⊢
    rw [find?_map_replace (fun s => s.razorpayOrderId == req.razorpay_order_id)
      (updatePaymentStatus now st PaymentStatus.SUCCESS (some req.razorpay_payment_id)) hy store,
      hfind]
    rfl
  have hsucc2 : (updatePaymentStatus now st PaymentStatus.SUCCESS
      (some req.razorpay_payment_id)).paymentStatus = PaymentStatus.SUCCESS := by
    rw [hupd]
  have hsecond : verifyPayment secret otherOk now2
      (store.map (fun s => if s.razorpayOrderId == req.razorpay_order_id then
        updatePaymentStatus now st PaymentStatus.SUCCESS (some req.razorpay_payment_id) else s))
      req =
      ⟨⟨200, true, some "Payment already processed", none,
        (updatePaymentStatus now st PaymentStatus.SUCCESS
          (some req.razorpay_payment_id)).razorpayPaymentId,
        some req.razorpay_order_id,
        some (updatePaymentStatus now st PaymentStatus.SUCCESS
          (some req.razorpay_payment_id)).invoiceLink,
        some (updatePaymentStatus now st PaymentStatus.SUCCESS
          (some req.razorpay_payment_id)).studentId,
        some (updatePaymentStatus now st PaymentStatus.SUCCESS
          (some req.razorpay_payment_id)).invoiceLink,
        none, false⟩,
       store.map (fun s => if s.razorpayOrderId == req.razorpay_order_id then
         updatePaymentStatus now st PaymentStatus.SUCCESS (some req.razorpay_payment_id) else s),
       0⟩ := by
    unfold verifyPayment
    rw [if_pos hv, hfind2]
    dsimp only
    rw [if_pos hsucc2]
  rw [hfirst]
  dsimp only
  rw [hsecond]
  refine ⟨rfl, rfl, rfl, rfl, rfl, ?_, rfl, rfl, rfl, rfl⟩
  rw [hupd]

/-- C1 witness: the amended statement at the concrete PROCESSING record (whose
SUCCESS transition passes the re-validation) and a correctly signed
callback. -/
theorem c1_verify_replay_idempotent_effects_witness :
    demoVerifyReq.razorpay_signature = expectedSignature "sk_test"
      demoVerifyReq.razorpay_order_id demoVerifyReq.razorpay_payment_id ∧
    findByRazorpayOrderId [demoStudent] demoVerifyReq.razorpay_order_id = some demoStudent ∧
    demoStudent.paymentStatus ≠ PaymentStatus.SUCCESS ∧
    demoVerifyReq.razorpay_payment_id ≠ "" ∧
    (validateStudent (updatePaymentStatus 42 demoStudent PaymentStatus.SUCCESS
      (some demoVerifyReq.razorpay_payment_id)) && true) = true ∧
    ((verifyPayment "sk_test" true 42 [demoStudent] demoVerifyReq).resp.success = true ∧
     (verifyPayment "sk_test" true 42 [demoStudent] demoVerifyReq).emailsSent = 1 ∧
     (verifyPayment "sk_test" true 43
        (verifyPayment "sk_test" true 42 [demoStudent] demoVerifyReq).store
        demoVerifyReq).resp.success = true ∧
     (verifyPayment "sk_test" true 43
        (verifyPayment "sk_test" true 42 [demoStudent] demoVerifyReq).store
        demoVerifyReq).emailsSent = 0 ∧
     (verifyPayment "sk_test" true 43
        (verifyPayment "sk_test" true 42 [demoStudent] demoVerifyReq).store
        demoVerifyReq).store =
       (verifyPayment "sk_test" true 42 [demoStudent] demoVerifyReq).store ∧
     (verifyPayment "sk_test" true 43
        (verifyPayment "sk_test" true 42 [demoStudent] demoVerifyReq).store
        demoVerifyReq).resp.paymentId =
       (verifyPayment "sk_test" true 42 [demoStudent] demoVerifyReq).resp.paymentId ∧
     (verifyPayment "sk_test" true 43
        (verifyPayment "sk_test" true 42 [demoStudent] demoVerifyReq).store
        demoVerifyReq).resp.orderId =
       (verifyPayment "sk_test" true 42 [demoStudent] demoVerifyReq).resp.orderId ∧
     (verifyPayment "sk_test" true 43
        (verifyPayment "sk_test" true 42 [demoStudent] demoVerifyReq).store
        demoVerifyReq).resp.invoiceLink =
       (verifyPayment "sk_test" true 42 [demoStudent] demoVerifyReq).resp.invoiceLink ∧
     (verifyPayment "sk_test" true 43
        (verifyPayment "sk_test" true 42 [demoStudent] demoVerifyReq).store
        demoVerifyReq).resp.message = some "Payment already processed" ∧
     (verifyPayment "sk_test" true 42 [demoStudent] demoVerifyReq).resp.message =
       some "Payment verified and student enrolled successfully") :=
  ⟨rfl, by decide, by decide, by decide, by decide,
   c1_verify_replay_idempotent_effects "sk_test" true 42 43 [demoStudent] demoVerifyReq
     demoStudent rfl (by decide) (by decide) (by decide) (by decide)⟩

end Sirtifai
